import Mathlib

/-!
Shallow embedding of the conversation/message data model of the
conversational-assistant backend (src/models/Conversation.js and
src/models/User.js), together with proofs of the specified properties.

Conventions of the embedding:
* Timestamps are naturals counting milliseconds since the epoch
  (JavaScript `Date` values).
* JavaScript numbers holding user counters are embedded as integers,
  since increments may be negative.
* Mongoose `save()` runs the pre-save middleware; we model it as a pure
  state transformer taking the `isModified` flag for the `messages` path
  as an argument.  The advisory `metadata` sub-document of a message is
  never read by any verified operation and is not carried.
-/

/-- Message author kind: the `type` field of `messageSchema`, enum `user | ai`. -/
inductive MType where
  | user
  | ai
deriving DecidableEq, Repr

/-- Content kind: the `contentType` field, enum `text | voice | image | file`. -/
inductive CType where
  | text
  | voice
  | image
  | file
deriving DecidableEq, Repr

/-- An embedded message record of `messageSchema`. -/
structure Message where
  mtype : MType
  content : String
  contentType : CType
  timestamp : Nat
deriving DecidableEq, Repr

/-- Input to `addMessage`: the caller supplies type, content and content
type; the `timestamp` field receives its schema default (the current
clock) at append time. -/
structure MessageData where
  mtype : MType
  content : String
  contentType : CType := CType.text
deriving DecidableEq, Repr

/-- The derived `stats` sub-document of `conversationSchema`. -/
structure ConvStats where
  totalMessages : Nat := 0
  userMessages : Nat := 0
  aiMessages : Nat := 0
  voiceMessages : Nat := 0
  duration : Nat := 0
  tokensUsed : Nat := 0
deriving DecidableEq, Repr

/-- Conversation lifecycle status, enum `active | archived | deleted`. -/
inductive ConvStatus where
  | active
  | archived
  | deleted
deriving DecidableEq, Repr

/-- A conversation document: ordered embedded messages plus derived state. -/
structure Conversation where
  messages : List Message
  stats : ConvStats
  status : ConvStatus
  isFavorite : Bool
  createdAt : Nat
  lastMessageAt : Nat
deriving DecidableEq, Repr

/-- A fresh conversation as mongoose creates it: empty message list, all
stats at their schema defaults, status `active`, and `createdAt`,
`lastMessageAt` both set to the creation clock. -/
def Conversation.create (now : Nat) : Conversation :=
  { messages := []
    stats := {}
    status := ConvStatus.active
    isFavorite := false
    createdAt := now
    lastMessageAt := now }

/-- The pre-save middleware of `conversationSchema`: when the `messages`
path was modified, recompute the four count statistics from the full
sequence and, when the sequence is non-empty, set `lastMessageAt` to the
timestamp of its last element. -/
def Conversation.preSave (c : Conversation) (messagesModified : Bool) : Conversation :=
  if messagesModified then
    let c := { c with stats :=
      { c.stats with
          totalMessages := c.messages.length
          userMessages := (c.messages.filter (fun (m : Message) => m.mtype == MType.user)).length
          aiMessages := (c.messages.filter (fun (m : Message) => m.mtype == MType.ai)).length
          voiceMessages := (c.messages.filter (fun (m : Message) => m.contentType == CType.voice)).length } }
    match c.messages.getLast? with
    | some m => { c with lastMessageAt := m.timestamp }
    | none => c
  else c

/-- Materialise appended message data with its defaulted timestamp. -/
def MessageData.toMessage (d : MessageData) (now : Nat) : Message :=
  { mtype := d.mtype
    content := d.content
    contentType := d.contentType
    timestamp := now }

/-- The `addMessage` method: push the message, set `lastMessageAt` to now,
then save, which runs the pre-save middleware with `messages` modified. -/
def Conversation.addMessage (c : Conversation) (d : MessageData) (now : Nat) : Conversation :=
  Conversation.preSave
    { c with
        messages := c.messages ++ [d.toMessage now]
        lastMessageAt := now }
    true

/-- The stats coherence invariant claimed for the derived counters. -/
def Conversation.statsCoherent (c : Conversation) : Prop :=
  c.stats.totalMessages = c.messages.length ∧
  c.stats.userMessages = (c.messages.filter (fun (m : Message) => m.mtype == MType.user)).length ∧
  c.stats.aiMessages = (c.messages.filter (fun (m : Message) => m.mtype == MType.ai)).length ∧
  c.stats.userMessages + c.stats.aiMessages = c.stats.totalMessages ∧
  c.stats.voiceMessages = (c.messages.filter (fun (m : Message) => m.contentType == CType.voice)).length

/-- Every message is authored either by the user or by the assistant, so
the two type-filtered counts partition the sequence. -/
theorem filter_user_add_filter_ai (l : List Message) :
    (l.filter (fun (m : Message) => m.mtype == MType.user)).length
      + (l.filter (fun (m : Message) => m.mtype == MType.ai)).length = l.length := by
  induction l with
  | nil => rfl
  | cons m rest ih =>
    cases h : m.mtype <;> simp [List.filter_cons, h] <;> omega

/-- C1: after any persisted append (`addMessage` from an arbitrary prior
state), the derived stats equal the corresponding counts over the current
message sequence, and the user and assistant counters sum to the total. -/
theorem addMessage_statsCoherent (c : Conversation) (d : MessageData) (now : Nat) :
    (c.addMessage d now).statsCoherent := by
  have hsum := filter_user_add_filter_ai (c.messages ++ [d.toMessage now])
  unfold Conversation.addMessage Conversation.preSave Conversation.statsCoherent
  simp only [List.getLast?_concat, if_true]
  simp_all [List.filter_append]

/-- The `getContextMessages` method is `this.messages.slice(-limit)` with
default limit 10.  JavaScript `slice` with a single negative argument `-n`
starts at index `max(len - n, 0)`; for `n = 0` the argument `-0` equals
`0`, so the slice starts at index 0 and returns the whole array.  The
method is a pure read: it returns a list and leaves the document as is. -/
def Conversation.getContextMessages (c : Conversation) (limit : Nat := 10) : List Message :=
  if limit = 0 then c.messages
  else c.messages.drop (c.messages.length - limit)

/-- The `generateTitle` method: content of the first user-authored
message, truncated to 50 characters plus an ellipsis marker when longer;
a fixed placeholder when no user message exists. -/
def Conversation.generateTitle (c : Conversation) : String :=
  match c.messages.find? (fun (m : Message) => m.mtype == MType.user) with
  | some firstUserMessage =>
    let content := firstUserMessage.content
    if 50 < content.length then content.take 50 ++ "..." else content
  | none => "New Conversation"

/-- The `calculateDuration` method: 0 with fewer than two messages,
otherwise the difference of the endpoint timestamps divided by 1000.
JavaScript divides numbers exactly (up to float rounding), so the result
lives in the rationals; the unreachable fallback keeps the match total. -/
def Conversation.calculateDuration (c : Conversation) : ℚ :=
  if c.messages.length < 2 then 0
  else
    match c.messages.head?, c.messages.getLast? with
    | some firstMessage, some lastMessage =>
        ((lastMessage.timestamp : ℚ) - (firstMessage.timestamp : ℚ)) / 1000
    | _, _ => 0

/-- The `archive` method: set status to archived and save; the save does
not modify the `messages` path, so the middleware leaves stats alone. -/
def Conversation.archive (c : Conversation) : Conversation :=
  Conversation.preSave { c with status := ConvStatus.archived } false

/-- The `delete` method (soft delete): set status to deleted and save. -/
def Conversation.delete (c : Conversation) : Conversation :=
  Conversation.preSave { c with status := ConvStatus.deleted } false

/-- The `restore` method: set status to active and save. -/
def Conversation.restore (c : Conversation) : Conversation :=
  Conversation.preSave { c with status := ConvStatus.active } false

/-- A concrete one-message conversation used to instantiate theorems. -/
def sampleConv : Conversation :=
  (Conversation.create 0).addMessage
    { mtype := MType.user, content := "Hello", contentType := CType.text } 1

/-- C8: archive, delete and restore each force their fixed target status
from any prior state, without validating the prior state; in particular
archive-then-restore and delete-then-restore both end in status active. -/
theorem status_transitions_spec (c : Conversation) :
    c.archive.status = ConvStatus.archived ∧
    c.delete.status = ConvStatus.deleted ∧
    c.restore.status = ConvStatus.active ∧
    c.archive.restore.status = ConvStatus.active ∧
    c.delete.restore.status = ConvStatus.active := by
  simp [Conversation.archive, Conversation.delete, Conversation.restore, Conversation.preSave]

/-- C10: with limit 0, `getContextMessages` returns the entire message
sequence, because slicing from index -0 is slicing from index 0. -/
theorem getContextMessages_zero (c : Conversation) :
    c.getContextMessages 0 = c.messages := by
  simp [Conversation.getContextMessages]

/-- C3 (amended to positive limits): for every limit at least 1,
`getContextMessages` returns the suffix of the most recent messages in
arrival order, of length exactly min(limit, number of messages); the
default limit is 10. -/
theorem getContextMessages_spec (c : Conversation) (limit : Nat) :
    (1 ≤ limit →
      c.getContextMessages limit = c.messages.drop (c.messages.length - limit) ∧
      (c.getContextMessages limit).length = min limit c.messages.length) ∧
    (c.getContextMessages : List Message) = c.getContextMessages 10 := by
  constructor
  · intro h
    have hne : limit ≠ 0 := by omega
    refine ⟨by simp [Conversation.getContextMessages, hne], ?_⟩
    simp [Conversation.getContextMessages, hne, List.length_drop]
    omega
  · rfl

/-- C3 counterexample: at limit 0 on a one-message conversation the
result has length 1, not min(0, 1) = 0, so the claim fails for the
non-negative limit 0. -/
theorem getContextMessages_zero_length_cex :
    ¬ ((sampleConv.getContextMessages 0).length
        = min 0 sampleConv.messages.length) := by
  decide

/-- Witness for the amended C3 at limit 1 on the sample conversation. -/
theorem getContextMessages_spec_witness :
    (sampleConv.getContextMessages 1).length = min 1 sampleConv.messages.length :=
  ((getContextMessages_spec sampleConv 1).1 (by decide)).2

/-- An append leaves the message sequence as the old one plus the new
message: the middleware only rewrites stats and `lastMessageAt`. -/
theorem addMessage_messages (c : Conversation) (d : MessageData) (now : Nat) :
    (c.addMessage d now).messages = c.messages ++ [d.toMessage now] := by
  simp [Conversation.addMessage, Conversation.preSave, List.getLast?_concat]

/-- After an append the persisted `lastMessageAt` is the append clock:
`addMessage` writes now, and the middleware overwrites it with the last
element's timestamp, which is again now by the schema default. -/
theorem addMessage_lastMessageAt_now (c : Conversation) (d : MessageData) (now : Nat) :
    (c.addMessage d now).lastMessageAt = now := by
  simp [Conversation.addMessage, Conversation.preSave, List.getLast?_concat,
    MessageData.toMessage]

/-- C2: after every persisted append, `lastMessageAt` is the timestamp of
the last element of `messages`; a fresh conversation with no messages has
`lastMessageAt` equal to its creation time; and an append at a clock not
earlier than the current `lastMessageAt` never decreases it, so under a
monotone clock the value never regresses across a sequence of appends. -/
theorem lastMessageAt_spec (c : Conversation) (d : MessageData) (now t : Nat) :
    (c.addMessage d now).messages.getLast?.map Message.timestamp
        = some (c.addMessage d now).lastMessageAt ∧
    (Conversation.create t).messages = [] ∧
    (Conversation.create t).lastMessageAt = t ∧
    (c.lastMessageAt ≤ now → c.lastMessageAt ≤ (c.addMessage d now).lastMessageAt) := by
  refine ⟨?_, rfl, rfl, ?_⟩
  · rw [addMessage_messages, addMessage_lastMessageAt_now]
    simp [List.getLast?_concat, MessageData.toMessage]
  · intro h
    rw [addMessage_lastMessageAt_now]
    exact h

/-- Witness for C2 on the fresh conversation created at clock 0 with an
append at clock 5. -/
theorem lastMessageAt_spec_witness :
    (Conversation.create 0).lastMessageAt ≤
      ((Conversation.create 0).addMessage
        { mtype := MType.user, content := "hi", contentType := CType.text } 5).lastMessageAt :=
  (lastMessageAt_spec (Conversation.create 0)
    { mtype := MType.user, content := "hi", contentType := CType.text } 5 0).2.2.2 (by decide)

/-- C6: `calculateDuration` returns 0 on fewer than two messages and
otherwise the difference of the endpoint timestamps in seconds; two
messages 10 seconds (10000 milliseconds) apart yield exactly 10. -/
theorem calculateDuration_spec (c : Conversation) :
    (c.messages.length < 2 → c.calculateDuration = 0) ∧
    (∀ a b : Message, 2 ≤ c.messages.length → c.messages.head? = some a →
        c.messages.getLast? = some b →
        c.calculateDuration = ((b.timestamp : ℚ) - (a.timestamp : ℚ)) / 1000) ∧
    (∀ a b : Message, c.messages = [a, b] → b.timestamp = a.timestamp + 10000 →
        c.calculateDuration = 10) := by
  refine ⟨?_, ?_, ?_⟩
  · intro h
    simp [Conversation.calculateDuration, h]
  · intro a b hlen hhead hlast
    have hnotlt : ¬ c.messages.length < 2 := by omega
    simp [Conversation.calculateDuration, hnotlt, hhead, hlast]
  · intro a b hmsgs hts
    have hhead : c.messages.head? = some a := by rw [hmsgs]; rfl
    have hlast : c.messages.getLast? = some b := by rw [hmsgs]; rfl
    have hnotlt : ¬ c.messages.length < 2 := by rw [hmsgs]; simp
    simp [Conversation.calculateDuration, hnotlt, hhead, hlast, hts]
    norm_num

/-- Witness for C6: a conversation whose two messages are 10000
milliseconds apart has duration exactly 10 seconds. -/
theorem calculateDuration_spec_witness :
    (((Conversation.create 0).addMessage
        { mtype := MType.user, content := "a", contentType := CType.text } 1000).addMessage
        { mtype := MType.ai, content := "b", contentType := CType.text } 11000).calculateDuration
      = 10 :=
  (calculateDuration_spec _).2.2
    { mtype := MType.user, content := "a", contentType := CType.text, timestamp := 1000 }
    { mtype := MType.ai, content := "b", contentType := CType.text, timestamp := 11000 }
    (by decide) (by decide)

/-- Length of a string truncation, stated via the underlying data. -/
theorem string_length_take (s : String) (n : Nat) : (s.take n).length = min n s.length := by
  cases s with
  | mk l => rw [String.take_eq]; simp [String.length_mk]

/-- Length of a string as the length of its character data. -/
theorem string_length_data (s : String) : s.length = s.data.length := by
  cases s with
  | mk l => rw [String.length_mk]

/-- A one-message conversation whose user message has 80 characters. -/
def longConv : Conversation :=
  (Conversation.create 0).addMessage
    { mtype := MType.user
      content := "aaaaaaaaaaaaaaaaaaaaaaaaaaaaaaaaaaaaaaaaaaaaaaaaaaaaaaaaaaaaaaaaaaaaaaaaaaaaaa"
      contentType := CType.text } 1

/-- C5: `generateTitle` returns the first user message content unchanged
when it has at most 50 characters; when it is longer it returns the first
50 characters followed by the three-character ellipsis marker, hence a
53-character string whose first 50 characters are preserved and whose
tail from position 50 is the marker; with no user message it returns the
fixed placeholder. -/
theorem generateTitle_spec (c : Conversation) :
    (c.messages.find? (fun (m : Message) => m.mtype == MType.user) = none →
        c.generateTitle = "New Conversation") ∧
    ∀ m : Message, c.messages.find? (fun (m : Message) => m.mtype == MType.user) = some m →
      (m.content.length ≤ 50 → c.generateTitle = m.content) ∧
      (50 < m.content.length →
        c.generateTitle = m.content.take 50 ++ "..." ∧
        c.generateTitle.length = 53 ∧
        c.generateTitle.take 50 = m.content.take 50 ∧
        c.generateTitle.drop 50 = "...") := by
  constructor
  · intro h
    simp [Conversation.generateTitle, h]
  · intro m hfind
    constructor
    · intro hle
      have hnot : ¬ 50 < m.content.length := by omega
      simp [Conversation.generateTitle, hfind, hnot]
    · intro hlt
      have heq : c.generateTitle = m.content.take 50 ++ "..." := by
        simp [Conversation.generateTitle, hfind, hlt]
      have htakelen : (m.content.take 50).length = 50 := by
        rw [string_length_take]; omega
      have htakedatalen : (m.content.data.take 50).length = 50 := by
        have := htakelen
        rw [string_length_data, String.data_take] at this
        exact this
      refine ⟨heq, ?_, ?_, ?_⟩
      · rw [heq, String.length_append, htakelen]
        rfl
      · rw [heq]
        apply String.ext
        rw [String.data_take, String.data_append, String.data_take]
        rw [List.take_append_of_le_length (by omega)]
        simp [List.take_take]
      · rw [heq]
        apply String.ext
        rw [String.data_drop, String.data_append, String.data_take]
        have hdrop := List.drop_left (m.content.data.take 50) ("...".data)
        rw [htakedatalen] at hdrop
        exact hdrop

/-- Witness for C5: the sample conversation titles to its short user
message verbatim, and the 80-character conversation to 53 characters. -/
theorem generateTitle_spec_witness :
    sampleConv.generateTitle = "Hello" ∧ longConv.generateTitle.length = 53 := by
  constructor
  · exact ((generateTitle_spec sampleConv).2
      { mtype := MType.user, content := "Hello", contentType := CType.text, timestamp := 1 }
      (by decide)).1 (by decide)
  · exact (((generateTitle_spec longConv).2
      { mtype := MType.user
        content := "aaaaaaaaaaaaaaaaaaaaaaaaaaaaaaaaaaaaaaaaaaaaaaaaaaaaaaaaaaaaaaaaaaaaaaaaaaaaaa"
        contentType := CType.text, timestamp := 1 }
      (by decide)).2 (by decide)).2.1

/-- The `stats` sub-document of `userSchema`: running counters, embedded
as integers because the increment argument is an arbitrary number. -/
structure UserStats where
  conversations : Int := 0
  messages : Int := 0
  voiceInteractions : Int := 0
  totalUsageTime : Int := 0
deriving DecidableEq, Repr

/-- A user document; `password` holds the stored bcrypt hash. -/
structure User where
  username : String
  email : String
  password : String
  stats : UserStats
  isActive : Bool
  lastActive : Nat
deriving DecidableEq, Repr

/-- The `updateStats` method: a switch on the kind string incrementing
exactly one counter, with no default branch, followed by a save; the
save's pre-save middleware only rehashes a modified password, which this
method never touches, so persisting changes nothing further. -/
def User.updateStats (u : User) (kind : String) (increment : Int := 1) : User :=
  if kind = "conversation" then
    { u with stats := { u.stats with conversations := u.stats.conversations + increment } }
  else if kind = "message" then
    { u with stats := { u.stats with messages := u.stats.messages + increment } }
  else if kind = "voice" then
    { u with stats := { u.stats with voiceInteractions := u.stats.voiceInteractions + increment } }
  else if kind = "usage" then
    { u with stats := { u.stats with totalUsageTime := u.stats.totalUsageTime + increment } }
  else u

/-- The `comparePassword` method delegates to bcrypt; the hash check is
abstracted as an explicit comparison function from candidate plaintext
and stored hash to Bool. -/
def User.comparePassword (compare : String → String → Bool) (u : User)
    (candidatePassword : String) : Bool :=
  compare candidatePassword u.password

/-- The static `findByCredentials`: look the account up by email against
the collection, rejecting an unknown email and a failed password check
with the same thrown error message. -/
def findByCredentials (compare : String → String → Bool) (db : List User)
    (email password : String) : Except String User :=
  match db.find? (fun (u : User) => u.email == email) with
  | none => Except.error "Invalid login credentials"
  | some user =>
    if user.comparePassword compare password then Except.ok user
    else Except.error "Invalid login credentials"

/-- A concrete user used to instantiate theorems. -/
def sampleUser : User :=
  { username := "alice"
    email := "alice@example.com"
    password := "storedhash"
    stats := { conversations := 0, messages := 1, voiceInteractions := 0, totalUsageTime := 0 }
    isActive := true
    lastActive := 0 }

/-- C9: `updateStats` rewrites exactly the counter named by its kind,
adding the increment, and leaves every other field of the user record
untouched; any kind outside the four named ones changes nothing and
produces no error. -/
theorem updateStats_frame (u : User) (increment : Int) :
    u.updateStats "conversation" increment =
      { u with stats := { u.stats with conversations := u.stats.conversations + increment } } ∧
    u.updateStats "message" increment =
      { u with stats := { u.stats with messages := u.stats.messages + increment } } ∧
    u.updateStats "voice" increment =
      { u with stats := { u.stats with voiceInteractions := u.stats.voiceInteractions + increment } } ∧
    u.updateStats "usage" increment =
      { u with stats := { u.stats with totalUsageTime := u.stats.totalUsageTime + increment } } ∧
    (∀ kind : String, kind ≠ "conversation" → kind ≠ "message" → kind ≠ "voice" →
        kind ≠ "usage" → u.updateStats kind increment = u) := by
  refine ⟨by simp [User.updateStats], by simp [User.updateStats], by simp [User.updateStats],
    by simp [User.updateStats], ?_⟩
  intro kind h1 h2 h3 h4
  simp [User.updateStats, h1, h2, h3, h4]

/-- Witness for C9: an unknown kind is a no-op on the sample user and the
message kind adds its increment. -/
theorem updateStats_frame_witness :
    sampleUser.updateStats "other" 5 = sampleUser ∧
    (sampleUser.updateStats "message" 5).stats.messages = sampleUser.stats.messages + 5 := by
  constructor
  · exact (updateStats_frame sampleUser 5).2.2.2.2 "other"
      (by decide) (by decide) (by decide) (by decide)
  · rw [(updateStats_frame sampleUser 5).2.1]

/-- C4 counterexample: the code puts no sign restriction on the
increment, so a negative increment strictly decreases a counter. -/
theorem updateStats_negative_cex :
    (sampleUser.updateStats "message" (-1)).stats.messages < sampleUser.stats.messages := by
  decide

/-- C4 (amended to non-negative increments): for every kind and every
increment that is not negative, `updateStats` leaves each of the four
counters at least as large as before. -/
theorem updateStats_monotone (u : User) (kind : String) (increment : Int)
    (h : 0 ≤ increment) :
    u.stats.conversations ≤ (u.updateStats kind increment).stats.conversations ∧
    u.stats.messages ≤ (u.updateStats kind increment).stats.messages ∧
    u.stats.voiceInteractions ≤ (u.updateStats kind increment).stats.voiceInteractions ∧
    u.stats.totalUsageTime ≤ (u.updateStats kind increment).stats.totalUsageTime := by
  unfold User.updateStats
  split_ifs <;> refine ⟨?_, ?_, ?_, ?_⟩ <;> simp <;> omega

/-- Witness for the amended C4 on the sample user with increment 2. -/
theorem updateStats_monotone_witness :
    sampleUser.stats.messages ≤ (sampleUser.updateStats "message" 2).stats.messages :=
  (updateStats_monotone sampleUser "message" 2 (by decide)).2.1

/-- C7: credential lookup rejects an unknown email and an email whose
password check fails with the same error value, so the two failure
causes are indistinguishable from the result. -/
theorem findByCredentials_indistinguishable (compare : String → String → Bool)
    (db : List User) (email password : String) :
    (db.find? (fun (u : User) => u.email == email) = none →
        findByCredentials compare db email password
          = Except.error "Invalid login credentials") ∧
    (∀ u : User, db.find? (fun (u : User) => u.email == email) = some u →
        compare password u.password = false →
        findByCredentials compare db email password
          = Except.error "Invalid login credentials") := by
  constructor
  · intro h
    simp [findByCredentials, h]
  · intro u hfind hcmp
    simp [findByCredentials, hfind, User.comparePassword, hcmp]

/-- Witness for C7: with literal-equality as the hash check, an unknown
email and a wrong password both produce the same error on a one-user
collection. -/
theorem findByCredentials_indistinguishable_witness :
    findByCredentials (fun a b => a == b) [sampleUser] "nobody@example.com" "pw"
        = Except.error "Invalid login credentials" ∧
    findByCredentials (fun a b => a == b) [sampleUser] "alice@example.com" "wrong"
        = Except.error "Invalid login credentials" := by
  constructor
  · exact (findByCredentials_indistinguishable (fun a b => a == b) [sampleUser]
      "nobody@example.com" "pw").1 (by decide)
  · exact (findByCredentials_indistinguishable (fun a b => a == b) [sampleUser]
      "alice@example.com" "wrong").2 sampleUser (by decide) (by decide)
